import Mathlib

/-!
# Verification of the animation state machine and export timeline

Shallow embedding of the `alecgrater/animation` repository:

* `src/src/config.py`   – timing and screen constants;
* `src/src/character.py` – the `Character` entity (position, speed, direction,
  bounding box, movement);
* `src/src/animation.py` – the `AnimationController` phase state machine;
* `src/export_tiktok_final.py` – the export driver's audio-event recorder and
  the moviepy audio mixdown.

Modelling notes.

* Times are `Int` milliseconds, exactly as Python `pygame.time.get_ticks()`
  integers.  Character coordinates are `Int`: the characters are created at
  integer positions and every mutation in the phases the claims concern adds
  an integer (`speed * direction`, the ±5 separation nudge), so positions are
  integer-valued in every run considered; `pygame.Rect` truncation is then
  the identity.
* The CatRun progress test `progress >= 0.55` divides two small integers in
  double precision; `385/700` and the literal `0.55` round to the same double,
  so the test is exactly the rational comparison `(elapsed : ℚ)/700 ≥ 0.55`,
  which is how it is embedded.
* Purely visual fields (`cat_x`, `cat_scale`, `ufo_y`, `beam_alpha`, the
  walk/talk animation frames, the smiling/talking/walking flags) and the
  rendering-only float drift of `char2.y` during AlienAbduction are omitted:
  no control-flow decision or recorded event reads them (`char2.y` is read by
  rectangle-collision tests only in BumpSequence and CollisionLoop, both
  strictly before AlienAbduction).
* Live sound playback (`AudioManager.play_sound` etc.) is a side effect with
  no feedback into control flow and is not modelled; the meow one-shot is
  tracked through the `meow_played` flag exactly as in the source.
* The measured dialogue durations (`dialogue_durations.get(text, DEFAULT)`)
  are arbitrary integers resolved at controller construction; they are the
  `Env` parameters below.  `Env.hasMeow` models whether `meow_sound` loaded.
-/

namespace Animation

/-! ## Configuration constants (src/src/config.py) -/

def SCREEN_WIDTH : Int := 1000
def SCREEN_HEIGHT : Int := 600
def CHARACTER_WIDTH : Int := 40
def CHARACTER_HEIGHT : Int := 60
def CHARACTER_SPEED : Int := 3
def COLLISION_DIALOGUE_DURATION : Int := 2000
def KIDDING_DIALOGUE_DURATION : Int := 3000
def HEY_YA_DIALOGUE_DURATION : Int := 2000
def COLLISION_LOOP_DURATION : Int := 6000
def FINAL_DIALOGUE_1_DURATION : Int := 2500
def FINAL_DIALOGUE_2_DURATION : Int := 2000

/-! ## Character (src/src/character.py) -/

structure Character where
  x : Int
  y : Int
  width : Int
  height : Int
  speed : Int
  direction : Int
deriving Repr, DecidableEq

/-- `Character.move`: `self.x += self.speed * self.direction`. -/
def Character.move (c : Character) : Character :=
  { c with x := c.x + c.speed * c.direction }

/-- `Character.get_center_x`: `self.x + self.width // 2`. -/
def Character.get_center_x (c : Character) : Int :=
  c.x + c.width / 2

/-- `Character.reverse_direction`: `self.direction *= -1`. -/
def Character.reverse_direction (c : Character) : Character :=
  { c with direction := c.direction * (-1) }

/-- `pygame.Rect(a).colliderect(Rect(b))` on the characters' bounding boxes
`Rect(x, y, width, height)`: strict overlap in both axes. -/
def collideRect (a b : Character) : Bool :=
  decide (a.x < b.x + b.width) && decide (b.x < a.x + a.width) &&
  decide (a.y < b.y + b.height) && decide (b.y < a.y + a.height)

/-! ## The phase state machine (src/src/animation.py) -/

inductive AnimationPhase where
  | CAT_RUN
  | WALKING_IN
  | COLLISION
  | KIDDING_DIALOGUE
  | HEY_YA_DIALOGUE
  | BUMP_SEQUENCE
  | COLLISION_LOOP
  | FINAL_DIALOGUE_1
  | FINAL_DIALOGUE_2
  | ALIEN_ABDUCTION
  | WALKING_OUT
  | FINISHED
deriving Repr, DecidableEq

/-- The bump sub-state string `"approaching" | "backing_up"`. -/
inductive BumpState where
  | approaching
  | backing_up
deriving Repr, DecidableEq

/-- The resolved environment of an `AnimationController`: the dialogue
durations resolved by `dialogue_durations.get(text, DEFAULT)` (measured audio
lengths in ms, or the config defaults when a file is missing), and whether the
meow sound loaded. -/
structure Env where
  watchIt : Int
  kidding : Int
  heyYa : Int
  goToWork : Int
  dontCare : Int
  hasMeow : Bool
deriving Repr, DecidableEq

/-- The mutable fields of `AnimationController` that feed control flow or
recorded events (rendering-only fields omitted, see the header note). -/
structure AState where
  phase : AnimationPhase
  dialogue_timer : Int
  collision_start_time : Int
  bump_count : Nat
  bump_state : BumpState
  bump_timer : Int
  cat_start_time : Int
  meow_played : Bool
  abduction_start_time : Int
  finished_time : Option Int
  char1 : Character
  char2 : Character
deriving Repr, DecidableEq

/-- `_transition_to_walking_in`. -/
def transition_to_walking_in (s : AState) : AState :=
  { s with phase := .WALKING_IN }

/-- The CatRun meow trigger `progress >= 0.55` where
`progress = time_elapsed / 700`: the rational inequality
`0.55 ≤ elapsed / 700` (the doubles `385/700` and `0.55` round identically,
so the float test is exactly this rational one). -/
def progressAtLeast (elapsed : Int) : Prop :=
  (0.55 : ℚ) ≤ (elapsed : ℚ) / 700

/-- `0.55 ≤ e/700` over ℚ is `385 ≤ e`; deciding through the integer form
keeps the test kernel-computable. -/
instance : DecidablePred progressAtLeast := fun e =>
  decidable_of_iff (385 ≤ e)
    (by
      unfold progressAtLeast
      rw [le_div_iff₀ (by norm_num : (0 : ℚ) < 700)]
      constructor
      · intro h
        calc (0.55 : ℚ) * 700 = ((385 : Int) : ℚ) := by norm_num
        _ ≤ (e : ℚ) := by exact_mod_cast h
      · intro h
        have : ((385 : Int) : ℚ) ≤ (e : ℚ) := by
          calc ((385 : Int) : ℚ) = (0.55 : ℚ) * 700 := by norm_num
          _ ≤ (e : ℚ) := h
        exact_mod_cast this)

/-- `_update_cat_run`: lazy-initialises `cat_start_time`, advances the cat for
700 ms (the meow fires once at `progress >= 0.55` when loaded and not yet
played), then transitions to WalkingIn. -/
def update_cat_run (env : Env) (s : AState) (t : Int) : AState :=
  let st := if s.cat_start_time = 0 then t else s.cat_start_time
  let s1 := { s with cat_start_time := st }
  if t - st < 700 then
    if progressAtLeast (t - st) ∧ s1.meow_played = false ∧ env.hasMeow = true then
      { s1 with meow_played := true }
    else s1
  else transition_to_walking_in s1

/-- `_transition_to_collision`: stop both characters, start the dialogue
timer (smiling/talking flags and sound playback omitted). -/
def transition_to_collision (s : AState) (t : Int) : AState :=
  { s with phase := .COLLISION,
           char1 := { s.char1 with speed := 0 },
           char2 := { s.char2 with speed := 0 },
           dialogue_timer := t }

/-- `_update_walking_in`: both characters move, then transition to Collision
when `char1.get_center_x() >= SCREEN_WIDTH//2 - 50` and
`char2.get_center_x() <= SCREEN_WIDTH//2 + 50`. -/
def update_walking_in (s : AState) (t : Int) : AState :=
  let c1 := s.char1.move
  let c2 := s.char2.move
  let s1 := { s with char1 := c1, char2 := c2 }
  if c1.get_center_x ≥ SCREEN_WIDTH / 2 - 50 ∧ c2.get_center_x ≤ SCREEN_WIDTH / 2 + 50 then
    transition_to_collision s1 t
  else s1

/-- `_transition_to_kidding_dialogue`. -/
def transition_to_kidding_dialogue (s : AState) (t : Int) : AState :=
  { s with phase := .KIDDING_DIALOGUE, dialogue_timer := t }

/-- `_update_collision`: hold for the "WATCH IT!" duration. -/
def update_collision (env : Env) (s : AState) (t : Int) : AState :=
  if t - s.dialogue_timer > env.watchIt then transition_to_kidding_dialogue s t else s

/-- `_transition_to_hey_ya_dialogue`. -/
def transition_to_hey_ya_dialogue (s : AState) (t : Int) : AState :=
  { s with phase := .HEY_YA_DIALOGUE, dialogue_timer := t }

/-- `_update_kidding_dialogue`. -/
def update_kidding_dialogue (env : Env) (s : AState) (t : Int) : AState :=
  if t - s.dialogue_timer > env.kidding then transition_to_hey_ya_dialogue s t else s

/-- `_transition_to_bump_sequence`: reset the bump counter and sub-state,
point the characters at each other at speed 3. -/
def transition_to_bump_sequence (s : AState) (t : Int) : AState :=
  { s with phase := .BUMP_SEQUENCE,
           bump_count := 0,
           bump_state := .approaching,
           bump_timer := t,
           char1 := { s.char1 with speed := 3, direction := 1 },
           char2 := { s.char2 with speed := 3, direction := -1 } }

/-- `_update_hey_ya_dialogue`. -/
def update_hey_ya_dialogue (env : Env) (s : AState) (t : Int) : AState :=
  if t - s.dialogue_timer > env.heyYa then transition_to_bump_sequence s t else s

/-- `_transition_to_collision_loop`: record the loop start, speed 2. -/
def transition_to_collision_loop (s : AState) (t : Int) : AState :=
  { s with phase := .COLLISION_LOOP,
           collision_start_time := t,
           char1 := { s.char1 with speed := 2 },
           char2 := { s.char2 with speed := 2 } }

/-- `_update_bump_sequence`: in `approaching` both characters move and a
rectangle collision increments the counter, reverses both directions and
starts the 500 ms backing-up window; in `backing_up` both characters move and
once the window elapses either CollisionLoop is entered (counter ≥ 5) or the
approach restarts. -/
def update_bump_sequence (s : AState) (t : Int) : AState :=
  match s.bump_state with
  | .approaching =>
    let c1 := s.char1.move
    let c2 := s.char2.move
    if collideRect c1 c2 then
      { s with char1 := { c1 with direction := -1 },
               char2 := { c2 with direction := 1 },
               bump_count := s.bump_count + 1,
               bump_state := .backing_up,
               bump_timer := t }
    else { s with char1 := c1, char2 := c2 }
  | .backing_up =>
    let s1 := { s with char1 := s.char1.move, char2 := s.char2.move }
    if t - s1.bump_timer > 500 then
      if s1.bump_count ≥ 5 then
        transition_to_collision_loop s1 t
      else
        { s1 with bump_state := .approaching,
                  char1 := { s1.char1 with direction := 1 },
                  char2 := { s1.char2 with direction := -1 } }
    else s1

/-- `_transition_to_final_dialogue_1`. -/
def transition_to_final_dialogue_1 (s : AState) (t : Int) : AState :=
  { s with phase := .FINAL_DIALOGUE_1,
           char1 := { s.char1 with speed := 0 },
           char2 := { s.char2 with speed := 0 },
           dialogue_timer := t }

/-- The screen-edge branch of `_update_collision_loop` for one character:
`if x < 0: direction = 1 elif x > SCREEN_WIDTH - width: direction = -1`. -/
def edgeBounce (c : Character) : Character :=
  if c.x < 0 then { c with direction := 1 }
  else if c.x > SCREEN_WIDTH - c.width then { c with direction := -1 }
  else c

/-- `_update_collision_loop`: move both, on mutual rectangle collision
reverse both directions and separate by 5 px each, then the screen-edge
checks, then after 6000 ms transition to FinalDialogue1. -/
def update_collision_loop (s : AState) (t : Int) : AState :=
  let lt := t - s.collision_start_time
  let c1 := s.char1.move
  let c2 := s.char2.move
  let p :=
    if collideRect c1 c2 then
      ({ c1.reverse_direction with x := c1.x - 5 },
       { c2.reverse_direction with x := c2.x + 5 })
    else (c1, c2)
  let d1 := edgeBounce p.1
  let d2 := edgeBounce p.2
  let s1 := { s with char1 := d1, char2 := d2 }
  if lt > COLLISION_LOOP_DURATION then transition_to_final_dialogue_1 s1 t else s1

/-- `_transition_to_final_dialogue_2`. -/
def transition_to_final_dialogue_2 (s : AState) (t : Int) : AState :=
  { s with phase := .FINAL_DIALOGUE_2, dialogue_timer := t }

/-- `_update_final_dialogue_1`. -/
def update_final_dialogue_1 (env : Env) (s : AState) (t : Int) : AState :=
  if t - s.dialogue_timer > env.goToWork then transition_to_final_dialogue_2 s t else s

/-- `_transition_to_alien_abduction` (the rendering fields `ufo_y` and
`beam_alpha` are omitted). -/
def transition_to_alien_abduction (s : AState) (t : Int) : AState :=
  { s with phase := .ALIEN_ABDUCTION,
           abduction_start_time := t,
           char1 := { s.char1 with speed := 0 },
           char2 := { s.char2 with speed := 0 } }

/-- `_update_final_dialogue_2`: waits 400 ms beyond the dialogue duration. -/
def update_final_dialogue_2 (env : Env) (s : AState) (t : Int) : AState :=
  if t - s.dialogue_timer > env.dontCare + 400 then transition_to_alien_abduction s t else s

/-- `_transition_to_walking_out`. -/
def transition_to_walking_out (s : AState) : AState :=
  { s with phase := .WALKING_OUT,
           char1 := { s.char1 with speed := 3, direction := 1 },
           char2 := { s.char2 with speed := 3, direction := -1 } }

/-- `_update_alien_abduction`: purely time-keyed; the UFO/beam positions and
char2's float y-drift are rendering-only and omitted (nothing later reads
them); after 4000 ms transition to WalkingOut. -/
def update_alien_abduction (s : AState) (t : Int) : AState :=
  if t - s.abduction_start_time > 4000 then transition_to_walking_out s else s

/-- `_transition_to_finished`: `finished_time = None`. -/
def transition_to_finished (s : AState) : AState :=
  { s with phase := .FINISHED, finished_time := none }

/-- `_update_walking_out`: move both; finish once char1 passed the right edge
and char2 fully past the left edge. -/
def update_walking_out (s : AState) (_t : Int) : AState :=
  let s1 := { s with char1 := s.char1.move, char2 := s.char2.move }
  if s1.char1.x > SCREEN_WIDTH ∧ s1.char2.x < -s1.char2.width then
    transition_to_finished s1
  else s1

/-- `_update_finished`: record the time of first entry (the source reads
`pygame.time.get_ticks()`, the same clock that supplies `current_time`). -/
def update_finished (s : AState) (t : Int) : AState :=
  if s.finished_time = none then { s with finished_time := some t } else s

/-- `AnimationController.update`: dispatch on the current phase. -/
def update (env : Env) (s : AState) (t : Int) : AState :=
  match s.phase with
  | .CAT_RUN => update_cat_run env s t
  | .WALKING_IN => update_walking_in s t
  | .COLLISION => update_collision env s t
  | .KIDDING_DIALOGUE => update_kidding_dialogue env s t
  | .HEY_YA_DIALOGUE => update_hey_ya_dialogue env s t
  | .BUMP_SEQUENCE => update_bump_sequence s t
  | .COLLISION_LOOP => update_collision_loop s t
  | .FINAL_DIALOGUE_1 => update_final_dialogue_1 env s t
  | .FINAL_DIALOGUE_2 => update_final_dialogue_2 env s t
  | .ALIEN_ABDUCTION => update_alien_abduction s t
  | .WALKING_OUT => update_walking_out s t
  | .FINISHED => update_finished s t

/-- Driving the controller with a sequence of tick timestamps. -/
def run (env : Env) (s : AState) (ts : List Int) : AState :=
  ts.foldl (update env) s

/-! ## The export driver's audio-event recorder (src/export_tiktok_final.py) -/

/-- A recorded timeline entry: `{'type': ..., 'timestamp_ms': ...}` plus the
dialogue file or the looping span duration. -/
inductive AEvent where
  | meow (ts : Int)
  | collision (ts : Int)
  | dialogue (ts : Int) (file : String)
  | walkingSpan (ts : Int) (dur : Int)
deriving Repr, DecidableEq

/-- The recorded `timestamp_ms` of an event. -/
def AEvent.ts : AEvent → Int
  | .meow t => t
  | .collision t => t
  | .dialogue t _ => t
  | .walkingSpan t _ => t

/-- Is this a looping-sound-span (`walking_start`) event? -/
def AEvent.isSpan : AEvent → Bool
  | .walkingSpan _ _ => true
  | _ => false

/-- Is this a meow event? -/
def AEvent.isMeow : AEvent → Bool
  | .meow _ => true
  | _ => false

/-- The Python pattern `if walking_start_time: append walking_start event`:
`walking_start_time` is truthy when it is neither `None` nor `0`, and the
span's duration is computed retroactively as `current_time - start`. -/
def closeSpanEvents (ws : Option Int) (t : Int) : List AEvent :=
  match ws with
  | some w => if w ≠ 0 then [.walkingSpan w (t - w)] else []
  | none => []

/-- `walking_start_time = None` is executed only inside the truthiness test. -/
def closeSpanWs (ws : Option Int) : Option Int :=
  match ws with
  | some w => if w ≠ 0 then none else some w
  | none => none

/-- The `if current_phase != last_phase:` block of `export_tiktok_video`:
events appended (in order) and the new `walking_start_time` for each newly
observed phase. -/
def phaseChangeEvents (ph : AnimationPhase) (frameCount : Nat) (ws : Option Int)
    (t : Int) : List AEvent × Option Int :=
  match ph with
  | .CAT_RUN => (if frameCount > 0 then [.meow (t + 385)] else [], ws)
  | .WALKING_IN => ([], some t)
  | .COLLISION =>
      (closeSpanEvents ws t ++
        [.collision t,
         .dialogue t "assets/01_01_watch_it.wav",
         .dialogue t "assets/01_02_watch_it.wav"],
       closeSpanWs ws)
  | .KIDDING_DIALOGUE => ([.dialogue t "assets/02_01_just_kidding.wav"], ws)
  | .HEY_YA_DIALOGUE => ([.dialogue t "assets/03_02_hey_ya.wav"], ws)
  | .BUMP_SEQUENCE => ([], some t)
  | .COLLISION_LOOP => (closeSpanEvents ws t, some t)
  | .FINAL_DIALOGUE_1 =>
      (closeSpanEvents ws t ++ [.dialogue t "assets/04_01_go_to_work.wav"],
       closeSpanWs ws)
  | .FINAL_DIALOGUE_2 => ([.dialogue t "assets/05_02_i_dont_care.wav"], ws)
  | .ALIEN_ABDUCTION => ([], ws)
  | .WALKING_OUT => ([], some t)
  | .FINISHED => ([], ws)

/-- The export loop's per-iteration state: the controller, the recorded
`audio_events` list, `frame_count`, `last_phase`, `walking_start_time` and
the `running` flag. -/
structure EState where
  anim : AState
  audio_events : List AEvent
  frame_count : Nat
  last_phase : Option AnimationPhase
  walking_start_time : Option Int
  running : Bool
deriving Repr, DecidableEq

/-- The `if current_phase != last_phase:` guard and block: the events
appended, the updated `walking_start_time`, and the updated `last_phase`
(assigned inside the block). -/
def tickPhaseBlock (es : EState) (t : Int) : List AEvent × Option Int × Option AnimationPhase :=
  if some es.anim.phase ≠ es.last_phase then
    let pw := phaseChangeEvents es.anim.phase es.frame_count es.walking_start_time t
    (pw.1, pw.2, some es.anim.phase)
  else ([], es.walking_start_time, es.last_phase)

/-- The in-phase collision tracking for BumpSequence and CollisionLoop,
evaluated on the *pre-update* character positions. -/
def tickCollEvents (es : EState) (t : Int) : List AEvent :=
  if (es.anim.phase = .BUMP_SEQUENCE ∨ es.anim.phase = .COLLISION_LOOP) ∧
      collideRect es.anim.char1 es.anim.char2 = true then
    [AEvent.collision t]
  else []

/-- The Finished auto-stop test: one second after `finished_time` was set
(Python truthiness: `finished_time` of `None` or `0` does not stop). -/
def tickStop (a : AState) (t : Int) : Bool :=
  if a.phase = .FINISHED then
    match a.finished_time with
    | some ft => if ft ≠ 0 ∧ t - ft > 1000 then true else false
    | none => false
  else false

/-- One iteration of the export `while running:` loop at `current_time = t`:
the phase-change event block (with `last_phase = current_phase` inside it),
the in-phase collision tracking, `animation.update(current_time)`, the
Finished auto-stop (closing a still-open walking span), and the frame
counter increment. -/
def export_tick (env : Env) (es : EState) (t : Int) : EState :=
  if es.running then
    let pc := tickPhaseBlock es t
    let collEvents := tickCollEvents es t
    let a := update env es.anim t
    let stopNow := tickStop a t
    let finEvents := if stopNow then closeSpanEvents pc.2.1 t else []
    { anim := a,
      audio_events := es.audio_events ++ pc.1 ++ collEvents ++ finEvents,
      frame_count := es.frame_count + 1,
      last_phase := pc.2.2,
      walking_start_time := pc.2.1,
      running := !stopNow }
  else es

/-- `char1 = Character(x=-50, y=SCREEN_HEIGHT-200, ...)` of the export
driver; `Character.__init__` fixes width/height/speed from the config. -/
def initChar1 : Character :=
  { x := -50, y := 400, width := 40, height := 60, speed := 3, direction := 1 }

/-- `char2 = Character(x=SCREEN_WIDTH+10, ...)` with `char2.direction = -1`. -/
def initChar2 : Character :=
  { x := 1010, y := 400, width := 40, height := 60, speed := 3, direction := -1 }

/-- `AnimationController.__init__`: phase CatRun, all timers zero. -/
def initAState : AState :=
  { phase := .CAT_RUN, dialogue_timer := 0, collision_start_time := 0,
    bump_count := 0, bump_state := .approaching, bump_timer := 0,
    cat_start_time := 0, meow_played := false, abduction_start_time := 0,
    finished_time := none, char1 := initChar1, char2 := initChar2 }

/-- The export loop's initial state. -/
def initEState : EState :=
  { anim := initAState, audio_events := [], frame_count := 0,
    last_phase := none, walking_start_time := none, running := true }

/-- One whole export run driven by the given tick timestamps. -/
def export_run (env : Env) (ts : List Int) : EState :=
  ts.foldl (export_tick env) initEState

/-! ## The audio mixdown (create_audio_track of src/export_tiktok_final.py) -/

/-- An audio clip placed on the output track: `set_start` offset and clip
length, in seconds (the source divides `timestamp_ms` by 1000). -/
structure PlacedClip where
  start : ℚ
  len : ℚ
deriving Repr, DecidableEq

/-- `loops_needed = int(duration_s / walking_clip.duration) + 1`
(`int()` of a nonnegative float truncates, i.e. floors). -/
def loopsNeeded (D L : ℚ) : ℕ :=
  (⌊D / L⌋).toNat + 1

/-- The `walking_start` branch of `create_audio_track`: concatenate
`loops_needed` copies of the base clip (total length `loops_needed * L`),
`subclip(0, duration_s)` (length `min` of the two), `set_start(timestamp_s)`. -/
def place_walking_span (S D L : ℚ) : PlacedClip :=
  { start := S, len := min ((loopsNeeded D L : ℚ) * L) D }

/-- Placement of a single recorded event given the loaded asset lengths
(seconds): one-shots and dialogue keep their natural length, a walking span
is looped and trimmed.  The failure branch (a clip that cannot load is
skipped with a warning) is not modelled: all assets are taken as loaded. -/
def placeEvent (assetLen : String → ℚ) (meowLen collLen walkLen : ℚ) :
    AEvent → PlacedClip
  | .meow ts => { start := (ts : ℚ) / 1000, len := meowLen }
  | .collision ts => { start := (ts : ℚ) / 1000, len := collLen }
  | .dialogue ts f => { start := (ts : ℚ) / 1000, len := assetLen f }
  | .walkingSpan ts dur =>
      place_walking_span ((ts : ℚ) / 1000) ((dur : ℚ) / 1000) walkLen

/-- All clips placed for a timeline. -/
def clipsOfEvents (assetLen : String → ℚ) (meowLen collLen walkLen : ℚ)
    (events : List AEvent) : List PlacedClip :=
  events.map (placeEvent assetLen meowLen collLen walkLen)

/-- `CompositeAudioClip`'s natural duration: the largest clip end. -/
def composite_duration (cs : List PlacedClip) : ℚ :=
  cs.foldr (fun c m => max (c.start + c.len) m) 0

/-- `final_audio.set_duration(total_duration_s)`: the output duration is
forced to the target — a shorter mix renders trailing silence, a longer one
is cut off. -/
def set_duration (_computed target : ℚ) : ℚ :=
  target

/-- The output track length of `create_audio_track`: `None` (returns False)
when no clip was placed, otherwise the composited track forced to the target
duration. -/
def create_audio_track_len (cs : List PlacedClip) (target : ℚ) : Option ℚ :=
  if cs.isEmpty then none else some (set_duration (composite_duration cs) target)

/-! ## Derived predicates and concrete data used by the theorems -/

/-- Adjacent-pairs check that a timeline's timestamps are monotone
non-decreasing in insertion order. -/
def chronB : List AEvent → Bool
  | [] => true
  | [_] => true
  | a :: b :: r => decide (a.ts ≤ b.ts) && chronB (b :: r)

/-- No meow event in the list. -/
def noMeowB (l : List AEvent) : Bool :=
  l.all (fun e => !e.isMeow)

/-- The events of a timeline that are not looping-sound spans. -/
def nonSpan (l : List AEvent) : List AEvent :=
  l.filter (fun e => !e.isSpan)

/-- The effective CatRun start time of a tick: `cat_start_time`, lazily
initialised to the current tick when still zero. -/
def catStart (s : AState) (t : Int) : Int :=
  if s.cat_start_time = 0 then t else s.cat_start_time

/-- Number of ticks of a run on which the meow fires (the `meow_played` flag
transitions from unset to set). -/
def fireCount (env : Env) : AState → List Int → ℕ
  | _, [] => 0
  | s, t :: ts =>
      (if (update env s t).meow_played = true ∧ s.meow_played = false then 1 else 0) +
      fireCount env (update env s t) ts

/-- The phases strictly after BumpSequence (all reachable from it). -/
def postBump (p : AnimationPhase) : Prop :=
  p = .COLLISION_LOOP ∨ p = .FINAL_DIALOGUE_1 ∨ p = .FINAL_DIALOGUE_2 ∨
  p = .ALIEN_ABDUCTION ∨ p = .WALKING_OUT ∨ p = .FINISHED

instance (p : AnimationPhase) : Decidable (postBump p) := by
  unfold postBump; infer_instance

/-- The bump-counter invariant: within BumpSequence the counter never exceeds
5 (and is at most 4 whenever the sub-state is `approaching`, since the
approach is restarted only below 5); in every later phase it is exactly 5. -/
def bumpInv (s : AState) : Prop :=
  (s.phase = .BUMP_SEQUENCE →
    s.bump_count ≤ 5 ∧ (s.bump_state = .approaching → s.bump_count ≤ 4))
  ∧ (postBump s.phase → s.bump_count = 5)

instance (s : AState) : Decidable (bumpInv s) := by
  unfold bumpInv; infer_instance

/-- The export-loop invariant that rules meow events out: the recorded
timeline has none, the controller can be in CatRun only if the previous
iteration already saw CatRun (or no iteration ran yet), and before the first
iteration the frame counter is zero. -/
def meowFree (es : EState) : Prop :=
  noMeowB es.audio_events = true
  ∧ (es.anim.phase = .CAT_RUN → es.last_phase = none ∨ es.last_phase = some .CAT_RUN)
  ∧ (es.last_phase = none → es.frame_count = 0)

instance (es : EState) : Decidable (meowFree es) := by
  unfold meowFree; infer_instance

/-- Timestamp order between two timeline entries. -/
def evLe (a e : AEvent) : Prop := a.ts ≤ e.ts

instance : DecidableRel evLe := fun a e => inferInstanceAs (Decidable (a.ts ≤ e.ts))

/-- The export-loop invariant behind chronological order of the non-span
events: no meow was recorded (`meowFree`), the non-span events are in
timestamp order, and all their timestamps are at most the last processed
tick `b`. -/
def chronInv (es : EState) (b : Int) : Prop :=
  meowFree es ∧
  List.Chain' evLe (nonSpan es.audio_events) ∧
  ∀ e ∈ nonSpan es.audio_events, e.ts ≤ b

/-- A sample resolved environment: the five config default durations
(`config.py`), meow sound loaded. -/
def env0 : Env :=
  { watchIt := COLLISION_DIALOGUE_DURATION, kidding := KIDDING_DIALOGUE_DURATION,
    heyYa := HEY_YA_DIALOGUE_DURATION, goToWork := FINAL_DIALOGUE_1_DURATION,
    dontCare := FINAL_DIALOGUE_2_DURATION, hasMeow := true }

/-- A concrete tick schedule for a full export run up to CollisionLoop:
two CatRun ticks, 160 WalkingIn ticks, one tick per dialogue phase, and the
bump-sequence approach/backing alternation (each backing window closed by a
tick 501 ms after the impact). -/
def ticksC4 : List Int :=
  [1000, 1700] ++ ((List.range 160).map (fun k => 1701 + (k : Int))) ++
  [4000, 7100, 9200] ++ ((List.range 11).map (fun k => 9300 + (k : Int))) ++
  [9811, 9812, 10313, 10314, 10815, 10816, 11317, 11318, 11819, 11900]

/-- The export state after the first 166 ticks of `ticksC4` (checked below):
inside BumpSequence, first approach move done, the walking span of the bump
phase opened at 9300. -/
def es166 : EState :=
  { anim := { phase := .BUMP_SEQUENCE,
              dialogue_timer := 7100,
              collision_start_time := 0,
              bump_count := 0,
              bump_state := .approaching,
              bump_timer := 9200,
              cat_start_time := 1000,
              meow_played := false,
              abduction_start_time := 0,
              finished_time := none,
              char1 := { x := 433, y := 400, width := 40, height := 60, speed := 3, direction := 1 },
              char2 := { x := 527, y := 400, width := 40, height := 60, speed := 3, direction := -1 } },
    audio_events := [.walkingSpan 1701 2299,
                     .collision 4000,
                     .dialogue 4000 "assets/01_01_watch_it.wav",
                     .dialogue 4000 "assets/01_02_watch_it.wav",
                     .dialogue 7100 "assets/02_01_just_kidding.wav",
                     .dialogue 9200 "assets/03_02_hey_ya.wav"],
    frame_count := 166,
    last_phase := some .BUMP_SEQUENCE,
    walking_start_time := some 9300,
    running := true }

/-- CatRun with the cat already started at t = 100 ms. -/
def sCat : AState :=
  { initAState with cat_start_time := 100 }

/-- A CollisionLoop state: char2 starts the tick at x = −2 (beyond the left
edge) moving right; char1 is adjacent so that the post-move rectangles
collide. -/
def sEdge : AState :=
  { initAState with
    phase := .COLLISION_LOOP,
    char1 := { x := 28, y := 400, width := 40, height := 60, speed := 2, direction := 1 },
    char2 := { x := -2, y := 400, width := 40, height := 60, speed := 2, direction := 1 } }

/-- A WalkingIn state one move away from the Collision trigger. -/
def sWalk : AState :=
  { initAState with
    phase := .WALKING_IN,
    char1 := { x := 427, y := 400, width := 40, height := 60, speed := 3, direction := 1 },
    char2 := { x := 533, y := 400, width := 40, height := 60, speed := 3, direction := -1 } }

/-- A CollisionLoop state where char1 both collides with char2 after moving
and ends beyond the left edge after the separation nudge. -/
def sOverride : AState :=
  { initAState with
    phase := .COLLISION_LOOP,
    char1 := { x := -40, y := 400, width := 40, height := 60, speed := 2, direction := 1 },
    char2 := { x := -10, y := 400, width := 40, height := 60, speed := 2, direction := -1 } }

/-- A BumpSequence state backing up after the 5th impact. -/
def sBump5 : AState :=
  { initAState with phase := .BUMP_SEQUENCE, bump_state := .backing_up,
                    bump_count := 5, bump_timer := 0 }

/-- Constant asset-length assignment for mixdown witnesses. -/
def constLen : String → ℚ := fun _ => 1

/-- Char1 after the movement and mutual-collision handling of a
CollisionLoop tick, before the screen-edge checks. -/
def postCollide1 (s : AState) : Character :=
  if collideRect s.char1.move s.char2.move then
    { s.char1.move.reverse_direction with x := s.char1.move.x - 5 }
  else s.char1.move

/-- Char2 after the movement and mutual-collision handling of a
CollisionLoop tick, before the screen-edge checks. -/
def postCollide2 (s : AState) : Character :=
  if collideRect s.char1.move s.char2.move then
    { s.char2.move.reverse_direction with x := s.char2.move.x + 5 }
  else s.char2.move

/-! ## Dispatch lemmas for `update` -/

lemma update_eq_cat_run (env : Env) (s : AState) (t : Int) (h : s.phase = .CAT_RUN) :
    update env s t = update_cat_run env s t := by
  unfold update; rw [h]

lemma update_eq_walking_in (env : Env) (s : AState) (t : Int) (h : s.phase = .WALKING_IN) :
    update env s t = update_walking_in s t := by
  unfold update; rw [h]

lemma update_eq_collision (env : Env) (s : AState) (t : Int) (h : s.phase = .COLLISION) :
    update env s t = update_collision env s t := by
  unfold update; rw [h]

lemma update_eq_kidding (env : Env) (s : AState) (t : Int) (h : s.phase = .KIDDING_DIALOGUE) :
    update env s t = update_kidding_dialogue env s t := by
  unfold update; rw [h]

lemma update_eq_hey_ya (env : Env) (s : AState) (t : Int) (h : s.phase = .HEY_YA_DIALOGUE) :
    update env s t = update_hey_ya_dialogue env s t := by
  unfold update; rw [h]

lemma update_eq_bump (env : Env) (s : AState) (t : Int) (h : s.phase = .BUMP_SEQUENCE) :
    update env s t = update_bump_sequence s t := by
  unfold update; rw [h]

lemma update_eq_collision_loop (env : Env) (s : AState) (t : Int) (h : s.phase = .COLLISION_LOOP) :
    update env s t = update_collision_loop s t := by
  unfold update; rw [h]

lemma update_eq_final_1 (env : Env) (s : AState) (t : Int) (h : s.phase = .FINAL_DIALOGUE_1) :
    update env s t = update_final_dialogue_1 env s t := by
  unfold update; rw [h]

lemma update_eq_final_2 (env : Env) (s : AState) (t : Int) (h : s.phase = .FINAL_DIALOGUE_2) :
    update env s t = update_final_dialogue_2 env s t := by
  unfold update; rw [h]

lemma update_eq_abduction (env : Env) (s : AState) (t : Int) (h : s.phase = .ALIEN_ABDUCTION) :
    update env s t = update_alien_abduction s t := by
  unfold update; rw [h]

lemma update_eq_walking_out (env : Env) (s : AState) (t : Int) (h : s.phase = .WALKING_OUT) :
    update env s t = update_walking_out s t := by
  unfold update; rw [h]

lemma update_eq_finished (env : Env) (s : AState) (t : Int) (h : s.phase = .FINISHED) :
    update env s t = update_finished s t := by
  unfold update; rw [h]

/-! ## C7: the WalkingIn → Collision trigger -/

/-- C7.  In WalkingIn, the machine transitions to Collision on exactly those
ticks at which, after the tick's movement, char1's center x is ≥
screen-center − 50 and char2's center x is ≤ screen-center + 50; on any other
tick it stays in WalkingIn. -/
theorem walking_in_collision_trigger (env : Env) (s : AState) (t : Int)
    (h : s.phase = .WALKING_IN) :
    ((update env s t).phase = .COLLISION ↔
      (s.char1.move.get_center_x ≥ SCREEN_WIDTH / 2 - 50 ∧
       s.char2.move.get_center_x ≤ SCREEN_WIDTH / 2 + 50))
    ∧ ((update env s t).phase ≠ .COLLISION → (update env s t).phase = .WALKING_IN) := by
  rw [update_eq_walking_in env s t h]
  simp only [update_walking_in]
  split_ifs with hc
  · exact ⟨iff_of_true rfl hc, fun hne => absurd rfl hne⟩
  · exact ⟨iff_of_false (by simp [h]) hc, fun _ => h⟩

/-- Witness for C7: a concrete WalkingIn state one move short of the trigger
transitions on exactly the triggering tick. -/
theorem walking_in_collision_trigger_witness :
    sWalk.phase = .WALKING_IN ∧ (update env0 sWalk 5).phase = .COLLISION :=
  ⟨by decide,
   (walking_in_collision_trigger env0 sWalk 5 (by decide)).1.mpr (by decide)⟩

/-! ## C5: looping-span mixdown placement -/

/-- C5.  A looping-sound-span event with start `S`, duration `D` and base
clip length `L > 0` is placed at offset `S` with length exactly `D`: the
`⌊D/L⌋ + 1` whole repetitions cover at least `D`, and the subclip trim cuts
the concatenation to exactly `D`, so the placed audio covers exactly
`[S, S + D)`. -/
theorem walking_span_mixdown_exact (S D L : ℚ) (hL : 0 < L) (hD : 0 ≤ D) :
    place_walking_span S D L = { start := S, len := D } ∧
    D ≤ (loopsNeeded D L : ℚ) * L := by
  have hfloor : (D / L) < (⌊D / L⌋ : ℚ) + 1 := Int.lt_floor_add_one _
  have hfne : (0 : ℤ) ≤ ⌊D / L⌋ := by
    apply Int.floor_nonneg.mpr
    positivity
  have h1 : ((⌊D / L⌋).toNat : ℤ) = ⌊D / L⌋ := Int.toNat_of_nonneg hfne
  have h2 : (((⌊D / L⌋).toNat : ℕ) : ℚ) = ((⌊D / L⌋ : ℤ) : ℚ) := by
    exact_mod_cast congrArg (fun z : ℤ => (z : ℚ)) h1
  have hcast : ((loopsNeeded D L : ℕ) : ℚ) = (⌊D / L⌋ : ℚ) + 1 := by
    unfold loopsNeeded
    rw [Nat.cast_add, Nat.cast_one, h2]
  have hcov : D ≤ (loopsNeeded D L : ℚ) * L := by
    rw [hcast]
    have := (div_lt_iff₀ hL).mp hfloor
    linarith
  refine ⟨?_, hcov⟩
  unfold place_walking_span
  congr 1
  exact min_eq_right hcov

/-- Witness for C5: the spec's instance S = 1000 ms, D = 2500 ms, L = 800 ms
(in seconds: 1, 5/2, 4/5): four repetitions, trimmed to land exactly on
3.5 s, covering exactly [1, 3.5). -/
theorem walking_span_mixdown_exact_witness :
    place_walking_span 1 (5/2) (4/5) = { start := 1, len := 5/2 } ∧
    loopsNeeded (5/2) (4/5) = 4 :=
  ⟨(walking_span_mixdown_exact 1 (5/2) (4/5) (by norm_num) (by norm_num)).1,
   by norm_num [loopsNeeded]; decide⟩

/-! ## C6: mixdown output length -/

/-- C6.  For every nonempty timeline and every target duration, the mixdown's
output track length equals the target exactly: `set_duration` forces the
composited track to the target, padding with silence or truncating. -/
theorem mixdown_length_eq_target (assetLen : String → ℚ) (mL cL wL : ℚ)
    (events : List AEvent) (target : ℚ) (h : events ≠ []) :
    create_audio_track_len (clipsOfEvents assetLen mL cL wL events) target =
      some target := by
  have hne : (clipsOfEvents assetLen mL cL wL events).isEmpty = false := by
    unfold clipsOfEvents
    cases events with
    | nil => exact absurd rfl h
    | cons a l => rfl
  simp [create_audio_track_len, set_duration, hne]

/-- Witness for C6: a one-event timeline mixes to exactly the 42 s target. -/
theorem mixdown_length_eq_target_witness :
    create_audio_track_len (clipsOfEvents constLen 1 1 1 [.collision 0]) 42 =
      some 42 :=
  mixdown_length_eq_target constLen 1 1 1 [.collision 0] 42 (by decide)

/-! ## C2: duration-gated phase exits -/

/-- Counterexample to C2: a CatRun tick whose elapsed time equals exactly
700 ms (not strictly more) already leaves the phase — the CatRun gate is
`elapsed < 700`, i.e. exit at `elapsed ≥ 700`, not at `elapsed > 700`. -/
theorem duration_exit_strict_cex :
    (update env0 sCat 800).phase = .WALKING_IN ∧
    ¬((800 : Int) - sCat.cat_start_time > 700) := by
  constructor
  · decide
  · decide

/-- C2 amended.  Every duration-gated phase is left exactly on the first tick
whose elapsed time strictly exceeds its threshold — Collision, Kidding,
HeyYa, FinalDialogue1 with their resolved durations, FinalDialogue2 with its
duration + 400 ms grace, CollisionLoop with 6000 ms, AlienAbduction with
4000 ms — and each goes to its successor phase; CatRun instead is left on the
first tick whose elapsed time is ≥ 700 ms (a not-yet-started CatRun tick
initialises the timer and stays). -/
theorem duration_exit_iff (env : Env) (s : AState) (t : Int) :
    (s.phase = .COLLISION →
      (((update env s t).phase ≠ .COLLISION) ↔ t - s.dialogue_timer > env.watchIt) ∧
      ((update env s t).phase ≠ .COLLISION → (update env s t).phase = .KIDDING_DIALOGUE))
    ∧ (s.phase = .KIDDING_DIALOGUE →
      (((update env s t).phase ≠ .KIDDING_DIALOGUE) ↔ t - s.dialogue_timer > env.kidding) ∧
      ((update env s t).phase ≠ .KIDDING_DIALOGUE → (update env s t).phase = .HEY_YA_DIALOGUE))
    ∧ (s.phase = .HEY_YA_DIALOGUE →
      (((update env s t).phase ≠ .HEY_YA_DIALOGUE) ↔ t - s.dialogue_timer > env.heyYa) ∧
      ((update env s t).phase ≠ .HEY_YA_DIALOGUE → (update env s t).phase = .BUMP_SEQUENCE))
    ∧ (s.phase = .FINAL_DIALOGUE_1 →
      (((update env s t).phase ≠ .FINAL_DIALOGUE_1) ↔ t - s.dialogue_timer > env.goToWork) ∧
      ((update env s t).phase ≠ .FINAL_DIALOGUE_1 → (update env s t).phase = .FINAL_DIALOGUE_2))
    ∧ (s.phase = .FINAL_DIALOGUE_2 →
      (((update env s t).phase ≠ .FINAL_DIALOGUE_2) ↔ t - s.dialogue_timer > env.dontCare + 400) ∧
      ((update env s t).phase ≠ .FINAL_DIALOGUE_2 → (update env s t).phase = .ALIEN_ABDUCTION))
    ∧ (s.phase = .COLLISION_LOOP →
      (((update env s t).phase ≠ .COLLISION_LOOP) ↔
        t - s.collision_start_time > COLLISION_LOOP_DURATION) ∧
      ((update env s t).phase ≠ .COLLISION_LOOP → (update env s t).phase = .FINAL_DIALOGUE_1))
    ∧ (s.phase = .ALIEN_ABDUCTION →
      (((update env s t).phase ≠ .ALIEN_ABDUCTION) ↔ t - s.abduction_start_time > 4000) ∧
      ((update env s t).phase ≠ .ALIEN_ABDUCTION → (update env s t).phase = .WALKING_OUT))
    ∧ (s.phase = .CAT_RUN → s.cat_start_time ≠ 0 →
      (((update env s t).phase ≠ .CAT_RUN) ↔ t - s.cat_start_time ≥ 700) ∧
      ((update env s t).phase ≠ .CAT_RUN → (update env s t).phase = .WALKING_IN))
    ∧ (s.phase = .CAT_RUN → s.cat_start_time = 0 → (update env s t).phase = .CAT_RUN) := by
  refine ⟨?_, ?_, ?_, ?_, ?_, ?_, ?_, ?_, ?_⟩
  · intro h
    rw [update_eq_collision env s t h]
    simp only [update_collision, transition_to_kidding_dialogue]
    split_ifs with hc
    · exact ⟨iff_of_true (by simp) hc, fun _ => rfl⟩
    · exact ⟨iff_of_false (by simp [h]) hc, fun hne => absurd h (by simpa using hne)⟩
  · intro h
    rw [update_eq_kidding env s t h]
    simp only [update_kidding_dialogue, transition_to_hey_ya_dialogue]
    split_ifs with hc
    · exact ⟨iff_of_true (by simp) hc, fun _ => rfl⟩
    · exact ⟨iff_of_false (by simp [h]) hc, fun hne => absurd h (by simpa using hne)⟩
  · intro h
    rw [update_eq_hey_ya env s t h]
    simp only [update_hey_ya_dialogue, transition_to_bump_sequence]
    split_ifs with hc
    · exact ⟨iff_of_true (by simp) hc, fun _ => rfl⟩
    · exact ⟨iff_of_false (by simp [h]) hc, fun hne => absurd h (by simpa using hne)⟩
  · intro h
    rw [update_eq_final_1 env s t h]
    simp only [update_final_dialogue_1, transition_to_final_dialogue_2]
    split_ifs with hc
    · exact ⟨iff_of_true (by simp) hc, fun _ => rfl⟩
    · exact ⟨iff_of_false (by simp [h]) hc, fun hne => absurd h (by simpa using hne)⟩
  · intro h
    rw [update_eq_final_2 env s t h]
    simp only [update_final_dialogue_2, transition_to_alien_abduction]
    split_ifs with hc
    · exact ⟨iff_of_true (by simp) hc, fun _ => rfl⟩
    · exact ⟨iff_of_false (by simp [h]) hc, fun hne => absurd h (by simpa using hne)⟩
  · intro h
    have hphase : (update env s t).phase =
        if t - s.collision_start_time > COLLISION_LOOP_DURATION then
          AnimationPhase.FINAL_DIALOGUE_1
        else AnimationPhase.COLLISION_LOOP := by
      rw [update_eq_collision_loop env s t h]
      simp only [update_collision_loop, transition_to_final_dialogue_1]
      split_ifs <;> simp [h]
    rw [hphase]
    split_ifs with ht
    · exact ⟨iff_of_true (by simp) ht, fun _ => rfl⟩
    · exact ⟨iff_of_false (by simp) ht, fun hne => absurd rfl hne⟩
  · intro h
    rw [update_eq_abduction env s t h]
    simp only [update_alien_abduction, transition_to_walking_out]
    split_ifs with hc
    · exact ⟨iff_of_true (by simp) hc, fun _ => rfl⟩
    · exact ⟨iff_of_false (by simp [h]) hc, fun hne => absurd h (by simpa using hne)⟩
  · intro h h0
    rw [update_eq_cat_run env s t h]
    simp only [update_cat_run, transition_to_walking_in, if_neg h0]
    split_ifs with hc1 hc2
    · refine ⟨iff_of_false (by simp [h]) (by omega), fun hne => absurd h (by simpa using hne)⟩
    · refine ⟨iff_of_false (by simp [h]) (by omega), fun hne => absurd h (by simpa using hne)⟩
    · exact ⟨iff_of_true (by simp) (by omega), fun _ => rfl⟩
  · intro h h0
    rw [update_eq_cat_run env s t h]
    simp only [update_cat_run, transition_to_walking_in, if_pos h0]
    split_ifs with hc1 hc2
    · exact h
    · exact h
    · omega

/-! ## CollisionLoop character-level lemmas -/

lemma move_x (c : Character) : c.move.x = c.x + c.speed * c.direction := rfl

lemma move_direction (c : Character) : c.move.direction = c.direction := rfl

lemma edgeBounce_x (c : Character) : (edgeBounce c).x = c.x := by
  unfold edgeBounce; split_ifs <;> rfl

lemma edgeBounce_dir_left (c : Character) (h : c.x < 0) :
    (edgeBounce c).direction = 1 := by
  unfold edgeBounce; rw [if_pos h]

lemma edgeBounce_dir_right (c : Character) (h0 : ¬ c.x < 0)
    (h : c.x > SCREEN_WIDTH - c.width) : (edgeBounce c).direction = -1 := by
  unfold edgeBounce; rw [if_neg h0, if_pos h]

lemma edgeBounce_eq_self (c : Character) (h0 : ¬ c.x < 0)
    (h : ¬ c.x > SCREEN_WIDTH - c.width) : edgeBounce c = c := by
  unfold edgeBounce; rw [if_neg h0, if_neg h]

lemma postCollide1_width (s : AState) : (postCollide1 s).width = s.char1.width := by
  unfold postCollide1 Character.reverse_direction Character.move
  split_ifs <;> rfl

lemma postCollide2_width (s : AState) : (postCollide2 s).width = s.char2.width := by
  unfold postCollide2 Character.reverse_direction Character.move
  split_ifs <;> rfl

lemma postCollide1_of_collide (s : AState)
    (h : collideRect s.char1.move s.char2.move = true) :
    postCollide1 s = { s.char1.move.reverse_direction with x := s.char1.move.x - 5 } := by
  unfold postCollide1; rw [if_pos h]

lemma postCollide2_of_collide (s : AState)
    (h : collideRect s.char1.move s.char2.move = true) :
    postCollide2 s = { s.char2.move.reverse_direction with x := s.char2.move.x + 5 } := by
  unfold postCollide2; rw [if_pos h]

lemma postCollide1_of_free (s : AState)
    (h : collideRect s.char1.move s.char2.move = false) :
    postCollide1 s = s.char1.move := by
  unfold postCollide1; rw [if_neg (by simp [h])]

lemma postCollide2_of_free (s : AState)
    (h : collideRect s.char1.move s.char2.move = false) :
    postCollide2 s = s.char2.move := by
  unfold postCollide2; rw [if_neg (by simp [h])]

/-- In CollisionLoop, the tick's effect on each character's position and
direction is: move, mutual-collision handling, then the edge checks (the
phase transition at 6000 ms only zeroes the speeds). -/
lemma collision_loop_chars (env : Env) (s : AState) (t : Int)
    (h : s.phase = .COLLISION_LOOP) :
    (update env s t).char1.x = (edgeBounce (postCollide1 s)).x ∧
    (update env s t).char1.direction = (edgeBounce (postCollide1 s)).direction ∧
    (update env s t).char2.x = (edgeBounce (postCollide2 s)).x ∧
    (update env s t).char2.direction = (edgeBounce (postCollide2 s)).direction := by
  rw [update_eq_collision_loop env s t h]
  simp only [update_collision_loop, transition_to_final_dialogue_1, postCollide1, postCollide2]
  split_ifs <;> exact ⟨rfl, rfl, rfl, rfl⟩

/-! ## C8: CollisionLoop wall bounce -/

/-- Counterexample to C8: in CollisionLoop with char2 at x = −2 (beyond the
left edge) moving right and char1 adjacent, the tick's mutual collision
reverses char2 to −1 and the +5 separation nudge puts it at x = 5 ≥ 0, so the
edge check does not fire: char2 was at x < 0 yet its direction on the next
tick is −1, not +1. -/
theorem collision_loop_wall_bounce_cex :
    sEdge.char2.x < 0 ∧ (update env0 sEdge 100).char2.direction = -1 := by
  constructor
  · decide
  · decide

/-- C8 amended.  The edge checks run last in the tick, so at the end of every
CollisionLoop tick a character sitting at x < 0 has direction +1 and one
sitting at x > screenWidth − width has direction −1; moreover the claim as
stated (x < 0 at the start of the tick forces direction +1 by the tick's
end, and symmetrically at the right edge) does hold whenever no mutual
rectangle collision occurs on the tick. -/
theorem collision_loop_wall_bounce (env : Env) (s : AState) (t : Int)
    (hph : s.phase = .COLLISION_LOOP)
    (hw1 : s.char1.width = 40) (hw2 : s.char2.width = 40)
    (hd1 : s.char1.direction = 1 ∨ s.char1.direction = -1)
    (hd2 : s.char2.direction = 1 ∨ s.char2.direction = -1)
    (hs1 : 0 ≤ s.char1.speed ∧ s.char1.speed ≤ 900)
    (hs2 : 0 ≤ s.char2.speed ∧ s.char2.speed ≤ 900) :
    ((update env s t).char1.x < 0 → (update env s t).char1.direction = 1)
    ∧ ((update env s t).char1.x > SCREEN_WIDTH - s.char1.width →
        (update env s t).char1.direction = -1)
    ∧ ((update env s t).char2.x < 0 → (update env s t).char2.direction = 1)
    ∧ ((update env s t).char2.x > SCREEN_WIDTH - s.char2.width →
        (update env s t).char2.direction = -1)
    ∧ (collideRect s.char1.move s.char2.move = false → s.char1.x < 0 →
        (update env s t).char1.direction = 1)
    ∧ (collideRect s.char1.move s.char2.move = false →
        s.char1.x > SCREEN_WIDTH - s.char1.width →
        (update env s t).char1.direction = -1)
    ∧ (collideRect s.char1.move s.char2.move = false → s.char2.x < 0 →
        (update env s t).char2.direction = 1)
    ∧ (collideRect s.char1.move s.char2.move = false →
        s.char2.x > SCREEN_WIDTH - s.char2.width →
        (update env s t).char2.direction = -1) := by
  obtain ⟨hx1, hdir1, hx2, hdir2⟩ := collision_loop_chars env s t hph
  have hpw1 : (postCollide1 s).width = 40 := by rw [postCollide1_width, hw1]
  have hpw2 : (postCollide2 s).width = 40 := by rw [postCollide2_width, hw2]
  refine ⟨?_, ?_, ?_, ?_, ?_, ?_, ?_, ?_⟩
  · intro hlt
    rw [hx1, edgeBounce_x] at hlt
    rw [hdir1, edgeBounce_dir_left _ hlt]
  · intro hgt
    rw [hx1, edgeBounce_x, hw1] at hgt
    have h0 : ¬ (postCollide1 s).x < 0 := by
      simp only [SCREEN_WIDTH] at hgt; omega
    rw [hdir1, edgeBounce_dir_right _ h0 (by rw [hpw1]; exact hgt)]
  · intro hlt
    rw [hx2, edgeBounce_x] at hlt
    rw [hdir2, edgeBounce_dir_left _ hlt]
  · intro hgt
    rw [hx2, edgeBounce_x, hw2] at hgt
    have h0 : ¬ (postCollide2 s).x < 0 := by
      simp only [SCREEN_WIDTH] at hgt; omega
    rw [hdir2, edgeBounce_dir_right _ h0 (by rw [hpw2]; exact hgt)]
  · intro hfree hlt
    rw [hdir1, postCollide1_of_free s hfree]
    by_cases hmx : s.char1.move.x < 0
    · rw [edgeBounce_dir_left _ hmx]
    · have hd : s.char1.direction = 1 := by
        rcases hd1 with hd | hd
        · exact hd
        · exfalso; rw [move_x, hd] at hmx; omega
      have hng : ¬ s.char1.move.x > SCREEN_WIDTH - s.char1.move.width := by
        rw [move_x, hd]
        show ¬ s.char1.x + s.char1.speed * 1 > SCREEN_WIDTH - s.char1.width
        simp only [SCREEN_WIDTH, hw1]
        omega
      rw [edgeBounce_eq_self _ hmx hng, move_direction, hd]
  · intro hfree hgt
    rw [hdir1, postCollide1_of_free s hfree]
    rw [hw1] at hgt
    have hd : s.char1.direction = 1 ∨ s.char1.direction = -1 := hd1
    by_cases hmx : s.char1.move.x > SCREEN_WIDTH - s.char1.move.width
    · have h0 : ¬ s.char1.move.x < 0 := by
        rw [move_x]
        rcases hd with hd | hd <;> rw [hd] <;> simp only [SCREEN_WIDTH] at hgt ⊢ <;> omega
      rw [edgeBounce_dir_right _ h0 hmx]
    · have h0 : ¬ s.char1.move.x < 0 := by
        rw [move_x]
        rcases hd with hd | hd <;> rw [hd] <;> simp only [SCREEN_WIDTH] at hgt ⊢ <;> omega
      rw [edgeBounce_eq_self _ h0 hmx, move_direction]
      rcases hd with hd | hd
      · exfalso
        rw [move_x, hd] at hmx
        show False
        have : s.char1.move.width = s.char1.width := rfl
        rw [move_x, hd] at h0
        simp only [SCREEN_WIDTH, hw1] at hmx hgt
        omega
      · exact hd
  · intro hfree hlt
    rw [hdir2, postCollide2_of_free s hfree]
    by_cases hmx : s.char2.move.x < 0
    · rw [edgeBounce_dir_left _ hmx]
    · have hd : s.char2.direction = 1 := by
        rcases hd2 with hd | hd
        · exact hd
        · exfalso; rw [move_x, hd] at hmx; omega
      have hng : ¬ s.char2.move.x > SCREEN_WIDTH - s.char2.move.width := by
        rw [move_x, hd]
        show ¬ s.char2.x + s.char2.speed * 1 > SCREEN_WIDTH - s.char2.width
        simp only [SCREEN_WIDTH, hw2]
        omega
      rw [edgeBounce_eq_self _ hmx hng, move_direction, hd]
  · intro hfree hgt
    rw [hdir2, postCollide2_of_free s hfree]
    rw [hw2] at hgt
    have hd : s.char2.direction = 1 ∨ s.char2.direction = -1 := hd2
    by_cases hmx : s.char2.move.x > SCREEN_WIDTH - s.char2.move.width
    · have h0 : ¬ s.char2.move.x < 0 := by
        rw [move_x]
        rcases hd with hd | hd <;> rw [hd] <;> simp only [SCREEN_WIDTH] at hgt ⊢ <;> omega
      rw [edgeBounce_dir_right _ h0 hmx]
    · have h0 : ¬ s.char2.move.x < 0 := by
        rw [move_x]
        rcases hd with hd | hd <;> rw [hd] <;> simp only [SCREEN_WIDTH] at hgt ⊢ <;> omega
      rw [edgeBounce_eq_self _ h0 hmx, move_direction]
      rcases hd with hd | hd
      · exfalso
        rw [move_x, hd] at hmx
        rw [move_x, hd] at h0
        have : s.char2.move.width = s.char2.width := rfl
        simp only [SCREEN_WIDTH, hw2] at hmx hgt
        omega
      · exact hd

/-- Witness for C8 amended: a concrete CollisionLoop tick at the left edge
without mutual collision flips the direction to +1. -/
theorem collision_loop_wall_bounce_witness :
    (update env0
      { initAState with
        phase := .COLLISION_LOOP,
        char1 := { x := -5, y := 400, width := 40, height := 60, speed := 2, direction := -1 },
        char2 := { x := 500, y := 400, width := 40, height := 60, speed := 2, direction := 1 } }
      100).char1.direction = 1 :=
  (collision_loop_wall_bounce env0 _ 100 rfl rfl rfl (Or.inr rfl) (Or.inl rfl)
    ⟨by decide, by decide⟩ ⟨by decide, by decide⟩).2.2.2.2.1 (by decide) (by decide)

/-! ## C10: edge check overrides the collision reversal, nudge preserved -/

/-- C10.  On a CollisionLoop tick whose post-move rectangles collide, each
character's final x is its moved x adjusted by the 5 px separation nudge
(char1 −5, char2 +5); the edge checks run after the mutual-collision
handling, so a character ending beyond the left edge gets direction +1 and
one ending beyond the right edge gets −1 (overriding the collision
reversal), while a character at neither edge keeps the reversed direction. -/
theorem collision_nudge_edge_override (env : Env) (s : AState) (t : Int)
    (hph : s.phase = .COLLISION_LOOP)
    (hcol : collideRect s.char1.move s.char2.move = true) :
    (update env s t).char1.x = s.char1.move.x - 5
    ∧ (update env s t).char2.x = s.char2.move.x + 5
    ∧ ((update env s t).char1.x < 0 → (update env s t).char1.direction = 1)
    ∧ (¬ (update env s t).char1.x < 0 →
        (update env s t).char1.x > SCREEN_WIDTH - s.char1.width →
        (update env s t).char1.direction = -1)
    ∧ (¬ (update env s t).char1.x < 0 →
        ¬ (update env s t).char1.x > SCREEN_WIDTH - s.char1.width →
        (update env s t).char1.direction = -s.char1.direction)
    ∧ ((update env s t).char2.x < 0 → (update env s t).char2.direction = 1)
    ∧ (¬ (update env s t).char2.x < 0 →
        (update env s t).char2.x > SCREEN_WIDTH - s.char2.width →
        (update env s t).char2.direction = -1)
    ∧ (¬ (update env s t).char2.x < 0 →
        ¬ (update env s t).char2.x > SCREEN_WIDTH - s.char2.width →
        (update env s t).char2.direction = -s.char2.direction) := by
  obtain ⟨hx1, hdir1, hx2, hdir2⟩ := collision_loop_chars env s t hph
  have hp1 := postCollide1_of_collide s hcol
  have hp2 := postCollide2_of_collide s hcol
  have hpx1 : (postCollide1 s).x = s.char1.move.x - 5 := by rw [hp1]
  have hpx2 : (postCollide2 s).x = s.char2.move.x + 5 := by rw [hp2]
  have hpd1 : (postCollide1 s).direction = -s.char1.direction := by
    rw [hp1]
    show s.char1.move.reverse_direction.direction = -s.char1.direction
    show s.char1.direction * (-1) = -s.char1.direction
    ring
  have hpd2 : (postCollide2 s).direction = -s.char2.direction := by
    rw [hp2]
    show s.char2.move.reverse_direction.direction = -s.char2.direction
    show s.char2.direction * (-1) = -s.char2.direction
    ring
  have hpw1 : (postCollide1 s).width = s.char1.width := postCollide1_width s
  have hpw2 : (postCollide2 s).width = s.char2.width := postCollide2_width s
  refine ⟨?_, ?_, ?_, ?_, ?_, ?_, ?_, ?_⟩
  · rw [hx1, edgeBounce_x, hpx1]
  · rw [hx2, edgeBounce_x, hpx2]
  · intro hlt
    rw [hx1, edgeBounce_x] at hlt
    rw [hdir1, edgeBounce_dir_left _ hlt]
  · intro h0 hgt
    rw [hx1, edgeBounce_x] at h0 hgt
    rw [hdir1, edgeBounce_dir_right _ h0 (by rw [hpw1]; exact hgt)]
  · intro h0 hgt
    rw [hx1, edgeBounce_x] at h0 hgt
    rw [hdir1, edgeBounce_eq_self _ h0 (by rw [hpw1]; exact hgt), hpd1]
  · intro hlt
    rw [hx2, edgeBounce_x] at hlt
    rw [hdir2, edgeBounce_dir_left _ hlt]
  · intro h0 hgt
    rw [hx2, edgeBounce_x] at h0 hgt
    rw [hdir2, edgeBounce_dir_right _ h0 (by rw [hpw2]; exact hgt)]
  · intro h0 hgt
    rw [hx2, edgeBounce_x] at h0 hgt
    rw [hdir2, edgeBounce_eq_self _ h0 (by rw [hpw2]; exact hgt), hpd2]

/-- Witness for C10: char1 collides with char2 near the left edge; its
reversal would give −1, the edge check overrides it to +1, and the −5 nudge
is applied to its moved position (−38 → −43). -/
theorem collision_nudge_edge_override_witness :
    (update env0 sOverride 100).char1.x = -43 ∧
    (update env0 sOverride 100).char1.direction = 1 := by
  have h := collision_nudge_edge_override env0 sOverride 100 rfl (by decide)
  exact ⟨by rw [h.1]; decide, h.2.2.1 (by rw [h.1]; decide)⟩

/-! ## C1: the bump-counter invariant -/

/-- One tick preserves the bump-counter invariant. -/
lemma bumpInv_step (env : Env) (s : AState) (t : Int) (h : bumpInv s) :
    bumpInv (update env s t) := by
  obtain ⟨h1, h2⟩ := h
  cases hph : s.phase
  case CAT_RUN =>
    rw [update_eq_cat_run env s t hph]
    simp only [update_cat_run, transition_to_walking_in]
    split_ifs <;>
      exact ⟨fun hp => by simp [hph] at hp, fun hp => by simp [postBump, hph] at hp⟩
  case WALKING_IN =>
    rw [update_eq_walking_in env s t hph]
    simp only [update_walking_in, transition_to_collision]
    split_ifs <;>
      exact ⟨fun hp => by simp [hph] at hp, fun hp => by simp [postBump, hph] at hp⟩
  case COLLISION =>
    rw [update_eq_collision env s t hph]
    simp only [update_collision, transition_to_kidding_dialogue]
    split_ifs <;>
      exact ⟨fun hp => by simp [hph] at hp, fun hp => by simp [postBump, hph] at hp⟩
  case KIDDING_DIALOGUE =>
    rw [update_eq_kidding env s t hph]
    simp only [update_kidding_dialogue, transition_to_hey_ya_dialogue]
    split_ifs <;>
      exact ⟨fun hp => by simp [hph] at hp, fun hp => by simp [postBump, hph] at hp⟩
  case HEY_YA_DIALOGUE =>
    rw [update_eq_hey_ya env s t hph]
    simp only [update_hey_ya_dialogue, transition_to_bump_sequence]
    split_ifs
    · exact ⟨fun _ => ⟨by simp, fun _ => by simp⟩, fun hp => by simp [postBump] at hp⟩
    · exact ⟨fun hp => by simp [hph] at hp, fun hp => by simp [postBump, hph] at hp⟩
  case BUMP_SEQUENCE =>
    have hb := h1 hph
    rw [update_eq_bump env s t hph]
    cases hbs : s.bump_state
    case approaching =>
      simp only [update_bump_sequence, hbs]
      split_ifs
      · refine ⟨fun _ => ⟨?_, fun hap => by simp at hap⟩, fun hp => by simp [postBump, hph] at hp⟩
        have := hb.2 hbs
        show s.bump_count + 1 ≤ 5
        omega
      · exact ⟨fun _ => ⟨hb.1, fun _ => hb.2 hbs⟩, fun hp => by simp [postBump, hph] at hp⟩
    case backing_up =>
      simp only [update_bump_sequence, hbs]
      split_ifs with ht hc
      · -- transition to CollisionLoop: the counter is ≥ 5 and (invariant) ≤ 5
        refine ⟨fun hp => by simp [transition_to_collision_loop] at hp,
                fun _ => ?_⟩
        show s.bump_count = 5
        have := hb.1
        omega
      · -- approach restarts with counter < 5
        refine ⟨fun _ => ⟨hb.1, fun _ => ?_⟩, fun hp => by simp [postBump, hph] at hp⟩
        show s.bump_count ≤ 4
        omega
      · exact ⟨fun _ => ⟨hb.1, fun hap => by simp [hbs] at hap⟩,
               fun hp => by simp [postBump, hph] at hp⟩
  case COLLISION_LOOP =>
    have hc := h2 (by simp [postBump, hph])
    rw [update_eq_collision_loop env s t hph]
    simp only [update_collision_loop, transition_to_final_dialogue_1]
    split_ifs <;>
      exact ⟨fun hp => by simp [hph] at hp, fun _ => hc⟩
  case FINAL_DIALOGUE_1 =>
    have hc := h2 (by simp [postBump, hph])
    rw [update_eq_final_1 env s t hph]
    simp only [update_final_dialogue_1, transition_to_final_dialogue_2]
    split_ifs <;>
      exact ⟨fun hp => by simp [hph] at hp, fun _ => hc⟩
  case FINAL_DIALOGUE_2 =>
    have hc := h2 (by simp [postBump, hph])
    rw [update_eq_final_2 env s t hph]
    simp only [update_final_dialogue_2, transition_to_alien_abduction]
    split_ifs <;>
      exact ⟨fun hp => by simp [hph] at hp, fun _ => hc⟩
  case ALIEN_ABDUCTION =>
    have hc := h2 (by simp [postBump, hph])
    rw [update_eq_abduction env s t hph]
    simp only [update_alien_abduction, transition_to_walking_out]
    split_ifs <;>
      exact ⟨fun hp => by simp [hph] at hp, fun _ => hc⟩
  case WALKING_OUT =>
    have hc := h2 (by simp [postBump, hph])
    rw [update_eq_walking_out env s t hph]
    simp only [update_walking_out, transition_to_finished]
    split_ifs <;>
      exact ⟨fun hp => by simp [hph] at hp, fun _ => hc⟩
  case FINISHED =>
    have hc := h2 (by simp [postBump, hph])
    rw [update_eq_finished env s t hph]
    simp only [update_finished]
    split_ifs <;>
      exact ⟨fun hp => by simp [hph] at hp, fun _ => hc⟩

/-- A whole run preserves the bump-counter invariant. -/
lemma bumpInv_run (env : Env) (ts : List Int) (s : AState) (h : bumpInv s) :
    bumpInv (run env s ts) := by
  induction ts generalizing s with
  | nil => exact h
  | cons t ts ih => exact ih (update env s t) (bumpInv_step env s t h)

/-- Entering BumpSequence establishes the invariant (counter reset to 0). -/
lemma bumpInv_entry (s : AState) (t : Int) :
    bumpInv (transition_to_bump_sequence s t) := by
  unfold transition_to_bump_sequence
  exact ⟨fun _ => ⟨by simp, fun _ => by simp⟩, fun hp => by simp [postBump] at hp⟩

/-- C1.  From BumpSequence entry, any tick run reaching CollisionLoop (or any
later phase) has recorded exactly 5 bump impacts, and within the phase the
counter never exceeds 5; the counter is incremented exactly once per
rectangle collision of an approaching tick; and the only exit from the phase
is the backing-up branch after its 500 ms window with the counter at exactly
5, going to CollisionLoop — never with fewer or more impacts. -/
theorem bump_sequence_exactly_five (env : Env) (s u : AState) (t0 tu : Int)
    (ts : List Int)
    (hmono : List.Chain' (· ≤ ·) (t0 :: ts))
    (hinv : bumpInv u) (hph : u.phase = .BUMP_SEQUENCE) :
    ((run env (transition_to_bump_sequence s t0) ts).phase = .COLLISION_LOOP →
        (run env (transition_to_bump_sequence s t0) ts).bump_count = 5)
    ∧ (postBump (run env (transition_to_bump_sequence s t0) ts).phase →
        (run env (transition_to_bump_sequence s t0) ts).bump_count = 5)
    ∧ ((run env (transition_to_bump_sequence s t0) ts).phase = .BUMP_SEQUENCE →
        (run env (transition_to_bump_sequence s t0) ts).bump_count ≤ 5)
    ∧ ((update env u tu).phase ≠ .BUMP_SEQUENCE ↔
        (u.bump_state = .backing_up ∧ tu - u.bump_timer > 500 ∧ u.bump_count = 5))
    ∧ ((update env u tu).phase ≠ .BUMP_SEQUENCE →
        (update env u tu).phase = .COLLISION_LOOP)
    ∧ (u.bump_state = .approaching →
        (update env u tu).bump_count =
          u.bump_count +
            (if collideRect u.char1.move u.char2.move = true then 1 else 0)) := by
  have hrun := bumpInv_run env ts _ (bumpInv_entry s t0)
  obtain ⟨hr1, hr2⟩ := hrun
  have hcount5 : u.phase = .BUMP_SEQUENCE → u.bump_count ≤ 5 := fun hp => (hinv.1 hp).1
  refine ⟨fun hp => hr2 (by simp [postBump, hp]), hr2, fun hp => (hr1 hp).1, ?_, ?_, ?_⟩
  · rw [update_eq_bump env u tu hph]
    cases hbs : u.bump_state
    case approaching =>
      simp only [update_bump_sequence, hbs]
      split_ifs
      · exact iff_of_false (by simp [hph]) (by simp)
      · exact iff_of_false (by simp [hph]) (by simp)
    case backing_up =>
      simp only [update_bump_sequence, hbs]
      split_ifs with ht hc
      · refine iff_of_true (by simp [transition_to_collision_loop]) ⟨by simp [hbs], ht, ?_⟩
        have := hcount5 hph
        omega
      · refine iff_of_false (by simp [hph]) ?_
        rintro ⟨-, -, h5⟩
        omega
      · refine iff_of_false (by simp [hph]) ?_
        rintro ⟨-, ht2, -⟩
        exact ht ht2
  · rw [update_eq_bump env u tu hph]
    cases hbs : u.bump_state
    case approaching =>
      simp only [update_bump_sequence, hbs]
      split_ifs <;> intro hne <;> exact absurd hph (by simpa using hne)
    case backing_up =>
      simp only [update_bump_sequence, hbs]
      split_ifs with ht hc
      · intro _; rfl
      · intro hne; exact absurd hph (by simpa using hne)
      · intro hne; exact absurd hph (by simpa using hne)
  · intro hbs
    rw [update_eq_bump env u tu hph]
    simp only [update_bump_sequence, hbs]
    split_ifs with hcol
    · rfl
    · simp

/-- Witness for C1: a state backing up after the 5th impact leaves the phase
precisely once the 500 ms window elapses. -/
theorem bump_sequence_exactly_five_witness :
    List.Chain' (· ≤ ·) [(0 : Int)] ∧ bumpInv sBump5 ∧
    sBump5.phase = .BUMP_SEQUENCE ∧
    ((update env0 sBump5 601).phase ≠ .BUMP_SEQUENCE ↔
      (sBump5.bump_state = .backing_up ∧ (601 : Int) - sBump5.bump_timer > 500 ∧
       sBump5.bump_count = 5)) :=
  ⟨by simp, by decide, by decide,
   (bump_sequence_exactly_five env0 initAState sBump5 0 601 [] (by simp)
      (by decide) (by decide)).2.2.2.1⟩

/-! ## C3: the one-shot meow -/

/-- The fired-flag is never cleared. -/
lemma meow_played_mono (env : Env) (s : AState) (t : Int)
    (h : s.meow_played = true) : (update env s t).meow_played = true := by
  cases hph : s.phase
  case CAT_RUN =>
    rw [update_eq_cat_run env s t hph]
    simp only [update_cat_run, transition_to_walking_in]
    split_ifs <;> first | rfl | exact h
  case WALKING_IN =>
    rw [update_eq_walking_in env s t hph]
    simp only [update_walking_in, transition_to_collision]
    split_ifs <;> exact h
  case COLLISION =>
    rw [update_eq_collision env s t hph]
    simp only [update_collision, transition_to_kidding_dialogue]
    split_ifs <;> exact h
  case KIDDING_DIALOGUE =>
    rw [update_eq_kidding env s t hph]
    simp only [update_kidding_dialogue, transition_to_hey_ya_dialogue]
    split_ifs <;> exact h
  case HEY_YA_DIALOGUE =>
    rw [update_eq_hey_ya env s t hph]
    simp only [update_hey_ya_dialogue, transition_to_bump_sequence]
    split_ifs <;> exact h
  case BUMP_SEQUENCE =>
    rw [update_eq_bump env s t hph]
    cases hbs : s.bump_state <;> simp only [update_bump_sequence, hbs] <;>
      split_ifs <;> first | exact h | simp only [transition_to_collision_loop] ; exact h
  case COLLISION_LOOP =>
    rw [update_eq_collision_loop env s t hph]
    simp only [update_collision_loop, transition_to_final_dialogue_1]
    split_ifs <;> exact h
  case FINAL_DIALOGUE_1 =>
    rw [update_eq_final_1 env s t hph]
    simp only [update_final_dialogue_1, transition_to_final_dialogue_2]
    split_ifs <;> exact h
  case FINAL_DIALOGUE_2 =>
    rw [update_eq_final_2 env s t hph]
    simp only [update_final_dialogue_2, transition_to_alien_abduction]
    split_ifs <;> exact h
  case ALIEN_ABDUCTION =>
    rw [update_eq_abduction env s t hph]
    simp only [update_alien_abduction, transition_to_walking_out]
    split_ifs <;> exact h
  case WALKING_OUT =>
    rw [update_eq_walking_out env s t hph]
    simp only [update_walking_out, transition_to_finished]
    split_ifs <;> exact h
  case FINISHED =>
    rw [update_eq_finished env s t hph]
    simp only [update_finished]
    split_ifs <;> exact h

/-- After the flag is set, no tick of any further run fires again. -/
lemma fireCount_zero (env : Env) (ts : List Int) (s : AState)
    (h : s.meow_played = true) : fireCount env s ts = 0 := by
  induction ts generalizing s with
  | nil => rfl
  | cons t ts ih =>
    simp only [fireCount, h]
    rw [ih (update env s t) (meow_played_mono env s t h)]
    simp

/-- The meow fires at most once along any run. -/
lemma fireCount_le_one (env : Env) (ts : List Int) (s : AState) :
    fireCount env s ts ≤ 1 := by
  induction ts generalizing s with
  | nil => simp [fireCount]
  | cons t ts ih =>
    simp only [fireCount]
    by_cases hf : (update env s t).meow_played = true ∧ s.meow_played = false
    · rw [if_pos hf, fireCount_zero env ts _ hf.1]
    · rw [if_neg hf]
      simpa using ih (update env s t)

/-- The single-tick firing condition: with the flag unset, the flag becomes
set on this tick iff the tick is a CatRun tick, the sound is loaded, and the
elapsed time (from the lazily initialised start) is `< 700` with
`progress ≥ 0.55`. -/
lemma meow_fire_iff (env : Env) (s : AState) (t : Int)
    (h : s.meow_played = false) :
    ((update env s t).meow_played = true ↔
      (s.phase = .CAT_RUN ∧ env.hasMeow = true ∧
       t - catStart s t < 700 ∧ progressAtLeast (t - catStart s t))) := by
  cases hph : s.phase
  case CAT_RUN =>
    rw [update_eq_cat_run env s t hph]
    simp only [update_cat_run, catStart, transition_to_walking_in]
    by_cases h0 : s.cat_start_time = 0
    · simp only [if_pos h0]
      split_ifs with h1 h2
      · exact iff_of_true rfl ⟨trivial, h2.2.2, h1, h2.1⟩
      · refine iff_of_false (by simp [h]) ?_
        rintro ⟨-, hm, -, hp⟩
        exact h2 ⟨hp, h, hm⟩
      · refine iff_of_false (by simp [h]) ?_
        rintro ⟨-, -, hlt, -⟩
        exact h1 hlt
    · simp only [if_neg h0]
      split_ifs with h1 h2
      · exact iff_of_true rfl ⟨trivial, h2.2.2, h1, h2.1⟩
      · refine iff_of_false (by simp [h]) ?_
        rintro ⟨-, hm, -, hp⟩
        exact h2 ⟨hp, h, hm⟩
      · refine iff_of_false (by simp [h]) ?_
        rintro ⟨-, -, hlt, -⟩
        exact h1 hlt
  case WALKING_IN =>
    rw [update_eq_walking_in env s t hph]
    simp only [update_walking_in, transition_to_collision]
    split_ifs <;> exact iff_of_false (by simp [h]) (by simp [hph])
  case COLLISION =>
    rw [update_eq_collision env s t hph]
    simp only [update_collision, transition_to_kidding_dialogue]
    split_ifs <;> exact iff_of_false (by simp [h]) (by simp [hph])
  case KIDDING_DIALOGUE =>
    rw [update_eq_kidding env s t hph]
    simp only [update_kidding_dialogue, transition_to_hey_ya_dialogue]
    split_ifs <;> exact iff_of_false (by simp [h]) (by simp [hph])
  case HEY_YA_DIALOGUE =>
    rw [update_eq_hey_ya env s t hph]
    simp only [update_hey_ya_dialogue, transition_to_bump_sequence]
    split_ifs <;> exact iff_of_false (by simp [h]) (by simp [hph])
  case BUMP_SEQUENCE =>
    rw [update_eq_bump env s t hph]
    cases hbs : s.bump_state
    case approaching =>
      simp only [update_bump_sequence, hbs]
      split_ifs <;> exact iff_of_false (by simp [h]) (by simp)
    case backing_up =>
      simp only [update_bump_sequence, hbs]
      split_ifs
      · exact iff_of_false (by simp [transition_to_collision_loop, h]) (by simp)
      · exact iff_of_false (by simp [h]) (by simp)
      · exact iff_of_false (by simp [h]) (by simp)
  case COLLISION_LOOP =>
    rw [update_eq_collision_loop env s t hph]
    simp only [update_collision_loop, transition_to_final_dialogue_1]
    split_ifs <;> exact iff_of_false (by simp [h]) (by simp [hph])
  case FINAL_DIALOGUE_1 =>
    rw [update_eq_final_1 env s t hph]
    simp only [update_final_dialogue_1, transition_to_final_dialogue_2]
    split_ifs <;> exact iff_of_false (by simp [h]) (by simp [hph])
  case FINAL_DIALOGUE_2 =>
    rw [update_eq_final_2 env s t hph]
    simp only [update_final_dialogue_2, transition_to_alien_abduction]
    split_ifs <;> exact iff_of_false (by simp [h]) (by simp [hph])
  case ALIEN_ABDUCTION =>
    rw [update_eq_abduction env s t hph]
    simp only [update_alien_abduction, transition_to_walking_out]
    split_ifs <;> exact iff_of_false (by simp [h]) (by simp [hph])
  case WALKING_OUT =>
    rw [update_eq_walking_out env s t hph]
    simp only [update_walking_out, transition_to_finished]
    split_ifs <;> exact iff_of_false (by simp [h]) (by simp [hph])
  case FINISHED =>
    rw [update_eq_finished env s t hph]
    simp only [update_finished]
    split_ifs <;> exact iff_of_false (by simp [h]) (by simp [hph])

/-- Counterexample to C3: with the meow sound loaded, the tick sequence
[100, 800] completes CatRun (phase left, never re-entered) without ever
firing the meow: the only tick inside the phase has progress 0 and the next
tick already exits, so "fires exactly once for every tick sequence" fails —
only at-most-once holds. -/
theorem meow_exactly_once_cex :
    env0.hasMeow = true ∧
    (run env0 initAState [100, 800]).phase = .WALKING_IN ∧
    (run env0 initAState [100, 800]).meow_played = false ∧
    fireCount env0 initAState [100, 800] = 0 := by
  refine ⟨rfl, by decide, by decide, by decide⟩

/-- C3 amended.  The fired-flag guard makes the meow fire at most once per
run: the flag never resets, a set flag blocks all later fires, any run fires
at most once, and with the flag unset a tick fires exactly when it is a
CatRun tick with the sound loaded, elapsed < 700 ms and progress ≥ 0.55 —
hence the first such tick fires; a tick sequence with no tick in that window
never fires. -/
theorem meow_fires_at_most_once (env : Env) (s : AState) (t : Int) (ts : List Int) :
    (s.meow_played = true → (update env s t).meow_played = true)
    ∧ (s.meow_played = true → fireCount env s ts = 0)
    ∧ fireCount env s ts ≤ 1
    ∧ (s.meow_played = false →
        ((update env s t).meow_played = true ↔
          (s.phase = .CAT_RUN ∧ env.hasMeow = true ∧
           t - catStart s t < 700 ∧ progressAtLeast (t - catStart s t)))) :=
  ⟨meow_played_mono env s t, fireCount_zero env ts s, fireCount_le_one env ts s,
   meow_fire_iff env s t⟩

/-! ## Export-loop invariants (C9 and C4) -/

/-- The controller never transitions into CatRun: only the initial state is
in that phase. -/
lemma update_phase_cat_run (env : Env) (s : AState) (t : Int)
    (h : (update env s t).phase = .CAT_RUN) : s.phase = .CAT_RUN := by
  cases hph : s.phase
  case CAT_RUN => rfl
  case WALKING_IN =>
    rw [update_eq_walking_in env s t hph] at h
    simp only [update_walking_in, transition_to_collision] at h
    split_ifs at h <;> simp [hph] at h
  case COLLISION =>
    rw [update_eq_collision env s t hph] at h
    simp only [update_collision, transition_to_kidding_dialogue] at h
    split_ifs at h <;> simp [hph] at h
  case KIDDING_DIALOGUE =>
    rw [update_eq_kidding env s t hph] at h
    simp only [update_kidding_dialogue, transition_to_hey_ya_dialogue] at h
    split_ifs at h <;> simp [hph] at h
  case HEY_YA_DIALOGUE =>
    rw [update_eq_hey_ya env s t hph] at h
    simp only [update_hey_ya_dialogue, transition_to_bump_sequence] at h
    split_ifs at h <;> simp [hph] at h
  case BUMP_SEQUENCE =>
    rw [update_eq_bump env s t hph] at h
    cases hbs : s.bump_state
    case approaching =>
      simp only [update_bump_sequence, hbs] at h
      split_ifs at h <;> simp [hph] at h
    case backing_up =>
      simp only [update_bump_sequence, hbs] at h
      split_ifs at h <;> simp [transition_to_collision_loop, hph] at h
  case COLLISION_LOOP =>
    rw [update_eq_collision_loop env s t hph] at h
    simp only [update_collision_loop, transition_to_final_dialogue_1] at h
    split_ifs at h <;> simp [hph] at h
  case FINAL_DIALOGUE_1 =>
    rw [update_eq_final_1 env s t hph] at h
    simp only [update_final_dialogue_1, transition_to_final_dialogue_2] at h
    split_ifs at h <;> simp [hph] at h
  case FINAL_DIALOGUE_2 =>
    rw [update_eq_final_2 env s t hph] at h
    simp only [update_final_dialogue_2, transition_to_alien_abduction] at h
    split_ifs at h <;> simp [hph] at h
  case ALIEN_ABDUCTION =>
    rw [update_eq_abduction env s t hph] at h
    simp only [update_alien_abduction, transition_to_walking_out] at h
    split_ifs at h <;> simp [hph] at h
  case WALKING_OUT =>
    rw [update_eq_walking_out env s t hph] at h
    simp only [update_walking_out, transition_to_finished] at h
    split_ifs at h <;> simp [hph] at h
  case FINISHED =>
    rw [update_eq_finished env s t hph] at h
    simp only [update_finished] at h
    split_ifs at h <;> simp [hph] at h

lemma noMeowB_append (a b : List AEvent) :
    noMeowB (a ++ b) = (noMeowB a && noMeowB b) := by
  simp [noMeowB, List.all_append]

lemma closeSpanEvents_noMeow (ws : Option Int) (t : Int) :
    noMeowB (closeSpanEvents ws t) = true := by
  cases ws with
  | none => rfl
  | some w =>
    simp only [closeSpanEvents]
    split_ifs <;> simp [noMeowB, AEvent.isMeow]

lemma closeSpanEvents_nonSpan (ws : Option Int) (t : Int) :
    nonSpan (closeSpanEvents ws t) = [] := by
  cases ws with
  | none => rfl
  | some w =>
    simp only [closeSpanEvents]
    split_ifs <;> simp [nonSpan, AEvent.isSpan]

lemma nonSpan_append (a b : List AEvent) :
    nonSpan (a ++ b) = nonSpan a ++ nonSpan b := by
  simp [nonSpan, List.filter_append]

lemma phaseChangeEvents_noMeow (ph : AnimationPhase) (fc : ℕ) (ws : Option Int)
    (t : Int) (hcat : ph = .CAT_RUN → fc = 0) :
    noMeowB (phaseChangeEvents ph fc ws t).1 = true := by
  cases ph
  case CAT_RUN => simp [phaseChangeEvents, hcat rfl, noMeowB]
  case COLLISION =>
    simp only [phaseChangeEvents, noMeowB_append, closeSpanEvents_noMeow, Bool.true_and]
    simp [noMeowB, AEvent.isMeow]
  case COLLISION_LOOP =>
    simpa only [phaseChangeEvents] using closeSpanEvents_noMeow ws t
  case FINAL_DIALOGUE_1 =>
    simp only [phaseChangeEvents, noMeowB_append, closeSpanEvents_noMeow, Bool.true_and]
    simp [noMeowB, AEvent.isMeow]
  all_goals simp [phaseChangeEvents, noMeowB, AEvent.isMeow]

lemma phaseChangeEvents_nonSpan_ts (ph : AnimationPhase) (fc : ℕ) (ws : Option Int)
    (t : Int) (hcat : ph = .CAT_RUN → fc = 0) :
    ∀ e ∈ nonSpan (phaseChangeEvents ph fc ws t).1, e.ts = t := by
  cases ph
  case CAT_RUN => simp [phaseChangeEvents, hcat rfl, nonSpan]
  case COLLISION =>
    simp only [phaseChangeEvents, nonSpan_append, closeSpanEvents_nonSpan,
               List.nil_append]
    simp [nonSpan, AEvent.isSpan, AEvent.ts]
  case COLLISION_LOOP =>
    simp only [phaseChangeEvents, closeSpanEvents_nonSpan]
    simp
  case FINAL_DIALOGUE_1 =>
    simp only [phaseChangeEvents, nonSpan_append, closeSpanEvents_nonSpan,
               List.nil_append]
    simp [nonSpan, AEvent.isSpan, AEvent.ts]
  all_goals simp [phaseChangeEvents, nonSpan, AEvent.isSpan, AEvent.ts]

lemma tickCollEvents_noMeow (es : EState) (t : Int) :
    noMeowB (tickCollEvents es t) = true := by
  unfold tickCollEvents
  split_ifs <;> simp [noMeowB, AEvent.isMeow]

lemma tickCollEvents_nonSpan_ts (es : EState) (t : Int) :
    ∀ e ∈ nonSpan (tickCollEvents es t), e.ts = t := by
  unfold tickCollEvents
  split_ifs <;> simp [nonSpan, AEvent.isSpan, AEvent.ts]

lemma tickPhaseBlock_last (es : EState) (t : Int) :
    (tickPhaseBlock es t).2.2 = some es.anim.phase := by
  unfold tickPhaseBlock
  split_ifs with hb
  · rfl
  · rw [not_not] at hb
    exact hb.symm

lemma tickPhaseBlock_noMeow (es : EState) (t : Int) (h : meowFree es) :
    noMeowB (tickPhaseBlock es t).1 = true := by
  obtain ⟨-, hcat, hfc⟩ := h
  unfold tickPhaseBlock
  split_ifs with hb
  · apply phaseChangeEvents_noMeow
    intro hph
    rcases hcat hph with hn | hs
    · exact hfc hn
    · exact absurd (by rw [hph, hs]) hb
  · rfl

lemma tickPhaseBlock_nonSpan_ts (es : EState) (t : Int) (h : meowFree es) :
    ∀ e ∈ nonSpan (tickPhaseBlock es t).1, e.ts = t := by
  obtain ⟨-, hcat, hfc⟩ := h
  unfold tickPhaseBlock
  split_ifs with hb
  · apply phaseChangeEvents_nonSpan_ts
    intro hph
    rcases hcat hph with hn | hs
    · exact hfc hn
    · exact absurd (by rw [hph, hs]) hb
  · simp [nonSpan]

lemma export_tick_fields (env : Env) (es : EState) (t : Int)
    (hrun : es.running = true) :
    (export_tick env es t).audio_events =
      es.audio_events ++ (tickPhaseBlock es t).1 ++ tickCollEvents es t ++
        (if tickStop (update env es.anim t) t then
          closeSpanEvents (tickPhaseBlock es t).2.1 t
        else []) ∧
    (export_tick env es t).anim = update env es.anim t ∧
    (export_tick env es t).last_phase = (tickPhaseBlock es t).2.2 ∧
    (export_tick env es t).frame_count = es.frame_count + 1 := by
  refine ⟨?_, ?_, ?_, ?_⟩ <;> simp only [export_tick, hrun, if_true]

/-- One iteration preserves the meow-freeness invariant. -/
lemma meowFree_step (env : Env) (es : EState) (t : Int) (h : meowFree es) :
    meowFree (export_tick env es t) := by
  by_cases hrun : es.running = true
  · obtain ⟨hev, hanim, hlast, -⟩ := export_tick_fields env es t hrun
    obtain ⟨hno, hcat, hfc⟩ := h
    refine ⟨?_, ?_, ?_⟩
    · rw [hev, noMeowB_append, noMeowB_append, noMeowB_append, hno,
          tickPhaseBlock_noMeow es t ⟨hno, hcat, hfc⟩, tickCollEvents_noMeow]
      split_ifs with hstop
      · rw [closeSpanEvents_noMeow]; simp
      · simp [noMeowB]
    · intro hph
      rw [hanim] at hph
      right
      rw [hlast, tickPhaseBlock_last]
      rw [update_phase_cat_run env es.anim t hph]
    · intro hnone
      rw [hlast, tickPhaseBlock_last] at hnone
      exact absurd hnone (by simp)
  · rw [export_tick, if_neg hrun]
    exact h

lemma meowFree_run (env : Env) (ts : List Int) (es : EState) (h : meowFree es) :
    meowFree (ts.foldl (export_tick env) es) := by
  induction ts generalizing es with
  | nil => exact h
  | cons t ts ih => exact ih (export_tick env es t) (meowFree_step env es t h)

lemma meowFree_init : meowFree initEState :=
  ⟨rfl, fun _ => Or.inl rfl, fun _ => rfl⟩

/-- C9.  No export run ever records a meow event: the recorder appends one
only when the phase changes *to* CatRun with a positive frame count, but
CatRun is only ever the initial phase (the first iteration has frame count 0
and the controller never re-enters CatRun). -/
theorem no_meow_event_recorded (env : Env) (ts : List Int) :
    noMeowB (export_run env ts).audio_events = true :=
  (meowFree_run env ts initEState meowFree_init).1

/-! ## C4: timestamp order of the recorded timeline -/

lemma chain'_const (l : List AEvent) (t : Int) (h : ∀ e ∈ l, e.ts = t) :
    List.Chain' evLe l := by
  induction l with
  | nil => simp
  | cons a l ih =>
    rw [List.chain'_cons']
    refine ⟨?_, ih (fun e he => h e (List.mem_cons_of_mem a he))⟩
    intro y hy
    have hyl : y ∈ l := List.mem_of_mem_head? hy
    unfold evLe
    rw [h a (List.mem_cons_self a l), h y (List.mem_cons_of_mem a hyl)]

lemma chain'_append_bound (l2 : List AEvent) (b t : Int)
    (h2 : ∀ e ∈ l2, e.ts = t) (hbt : b ≤ t) :
    ∀ l1 : List AEvent, List.Chain' evLe l1 → (∀ e ∈ l1, e.ts ≤ b) →
      List.Chain' evLe (l1 ++ l2) := by
  intro l1
  induction l1 with
  | nil => exact fun _ _ => chain'_const l2 t h2
  | cons a l1 ih =>
    intro h1 hb
    rw [List.chain'_cons'] at h1
    rw [List.cons_append, List.chain'_cons']
    refine ⟨?_, ih h1.2 (fun e he => hb e (List.mem_cons_of_mem a he))⟩
    intro y hy
    cases l1 with
    | nil =>
      simp only [List.nil_append] at hy
      have hyl : y ∈ l2 := List.mem_of_mem_head? hy
      unfold evLe
      rw [h2 y hyl]
      exact le_trans (hb a (List.mem_cons_self a [])) hbt
    | cons c l1' =>
      have hyc : c = y := by simpa using hy
      exact hyc ▸ h1.1 c (by simp)

/-- One iteration preserves the chronological-order invariant: every non-span
event it appends carries the current tick's timestamp. -/
lemma chronInv_step (env : Env) (es : EState) (t b : Int)
    (h : chronInv es b) (hbt : b ≤ t) : chronInv (export_tick env es t) t := by
  obtain ⟨hfree, hchain, hle⟩ := h
  by_cases hrun : es.running = true
  · obtain ⟨hev, -, -, -⟩ := export_tick_fields env es t hrun
    rw [List.append_assoc, List.append_assoc] at hev
    have hnewts : ∀ e ∈ nonSpan ((tickPhaseBlock es t).1 ++
        (tickCollEvents es t ++
          (if tickStop (update env es.anim t) t then
            closeSpanEvents (tickPhaseBlock es t).2.1 t
          else []))), e.ts = t := by
      intro e he
      rw [nonSpan_append, nonSpan_append] at he
      rcases List.mem_append.mp he with h1 | h2
      · exact tickPhaseBlock_nonSpan_ts es t hfree e h1
      rcases List.mem_append.mp h2 with h3 | h4
      · exact tickCollEvents_nonSpan_ts es t e h3
      · revert h4
        split_ifs with hstop
        · rw [closeSpanEvents_nonSpan]; simp
        · simp [nonSpan]
    refine ⟨meowFree_step env es t hfree, ?_, ?_⟩
    · rw [hev, nonSpan_append]
      exact chain'_append_bound _ b t hnewts hbt _ hchain hle
    · intro e he
      rw [hev, nonSpan_append] at he
      rcases List.mem_append.mp he with h1 | h2
      · exact le_trans (hle e h1) hbt
      · exact le_of_eq (hnewts e h2)
  · rw [export_tick, if_neg hrun]
    exact ⟨hfree, hchain, fun e he => le_trans (hle e he) hbt⟩

lemma chron_run (env : Env) :
    ∀ (ts : List Int) (es : EState) (b : Int), chronInv es b →
      List.Chain' (· ≤ ·) (b :: ts) →
      List.Chain' evLe (nonSpan (ts.foldl (export_tick env) es).audio_events) := by
  intro ts
  induction ts with
  | nil => exact fun es b h _ => h.2.1
  | cons t ts ih =>
    intro es b h hchain
    rw [List.chain'_cons] at hchain
    rw [List.foldl_cons]
    exact ih (export_tick env es t) t (chronInv_step env es t b h hchain.1) hchain.2

lemma chronInv_init (b : Int) : chronInv initEState b :=
  ⟨meowFree_init, by simp [initEState, nonSpan], by simp [initEState, nonSpan]⟩

/-- C4 amended.  For monotone tick input, the recorded timeline's one-shot
and dialogue events appear in timestamp order (each is stamped with the tick
that appended it); only the retroactively closed looping-span events can
break insertion-order chronology. -/
theorem timeline_nonspan_chronological (env : Env) (ts : List Int)
    (hmono : List.Chain' (· ≤ ·) ts) :
    List.Chain' evLe (nonSpan (export_run env ts).audio_events) := by
  cases ts with
  | nil => simp [export_run, initEState, nonSpan]
  | cons t ts =>
    unfold export_run
    rw [List.foldl_cons]
    exact chron_run env ts (export_tick env initEState t) t
      (chronInv_step env initEState t t (chronInv_init t) le_rfl) hmono

/-- Witness for C4 amended at a concrete monotone tick list. -/
theorem timeline_nonspan_chronological_witness :
    List.Chain' evLe (nonSpan (export_run env0 [0, 16, 32]).audio_events) :=
  timeline_nonspan_chronological env0 [0, 16, 32]
    (by
      show List.Chain (· ≤ ·) (0 : Int) [16, 32]
      exact List.Chain.cons (by norm_num) (List.Chain.cons (by norm_num) List.Chain.nil))

/-- The adjacent-pairs Boolean check agrees with `List.Chain'`. -/
lemma chronB_iff (l : List AEvent) :
    chronB l = true ↔ List.Chain' evLe l := by
  induction l with
  | nil => simp [chronB]
  | cons a l ih =>
    cases l with
    | nil => simp [chronB]
    | cons e r =>
      rw [List.chain'_cons]
      rw [show chronB (a :: e :: r) = (decide (a.ts ≤ e.ts) && chronB (e :: r)) from rfl]
      rw [Bool.and_eq_true, decide_eq_true_iff]
      exact and_congr Iff.rfl ih

set_option maxRecDepth 100000 in
/-- The export state after the first 166 ticks of `ticksC4` is `es166`
(computed in one kernel evaluation; the remaining 20 ticks are evaluated from
this literal in the counterexample below). -/
lemma export_run_166 : export_run env0 (ticksC4.take 166) = es166 := by decide

set_option maxRecDepth 100000 in
/-- Counterexample to C4: in the concrete export run driven by `ticksC4`,
the bump-phase walking span (opened at t = 9300) is appended only when
CollisionLoop is entered at t = 11900 — after the bump collision events
stamped 9811…11819 — so insertion order is not chronological order. -/
theorem timeline_chronological_cex :
    ¬ List.Chain' evLe (export_run env0 ticksC4).audio_events := by
  rw [← chronB_iff]
  have hsplit : ticksC4 = ticksC4.take 166 ++ ticksC4.drop 166 :=
    (List.take_append_drop 166 ticksC4).symm
  have h166 := export_run_166
  rw [export_run] at h166
  have hfalse : chronB (export_run env0 ticksC4).audio_events = false := by
    rw [export_run, hsplit, List.foldl_append, h166]
    decide
  simp [hfalse]

end Animation
